import Mathlib

/-!
Verification development for the HSAJ bridge (`src/bridge/src/index.js`).

The bridge's transport core is embedded shallowly:
* JavaScript objects are association lists of string keys and `JValue`s
  (`JObj`); property access is `lookupField`, and the object-spread pattern
  `\x7b ...o, k: v \x7d` is `objSet` (overwrite in place, else append).
* The closure state `currentTrackId` of `createTransportEmitter` becomes an
  explicit `EmitterState` threaded through `trackStart` / `stopCurrentTrack`,
  which return the (possibly empty) list of payloads handed to the broadcaster.
* `buildTransportMessage` becomes a pure function of the payload, the
  configured source tag and the current clock reading (`new Date().toISOString()`
  is passed in as the `now` argument).
* The HTTP dispatcher of `startApiServer` becomes `handleRequest` over the
  request method and the pathname (as a character list); `decodeURIComponent`
  is modelled by `percentDecode`, where `none` stands for the `URIError` the
  JavaScript function throws on malformed input.
-/

/-- Field values of the JavaScript objects the bridge manipulates: every field
of the transport payloads and API bodies is a string or a number. -/
inductive JValue where
  | str (s : String)
  | num (n : Int)
deriving DecidableEq

/-- A JavaScript object, as an insertion-ordered association list. All objects
built by the bridge have pairwise-distinct keys. -/
abbrev JObj := List (String × JValue)

/-- Property access `o.k`: first binding of `k`, or `none` for `undefined`. -/
def lookupField : JObj → String → Option JValue
  | [], _ => none
  | (k2, v) :: rest, k => if k2 = k then some v else lookupField rest k

/-- Object spread followed by an explicit field, `\x7b ...o, k: v \x7d`:
overwrite the value of `k` in place if present, else append the binding. -/
def objSet : JObj → String → JValue → JObj
  | [], k, v => [(k, v)]
  | (k2, v2) :: rest, k, v =>
    if k2 = k then (k, v) :: rest else (k2, v2) :: objSet rest k v

/-- JavaScript falsiness of `undefined` (absent), a string or a number, as used
by the `!track.track_id` and `!currentTrackId` guards. -/
def jsFalsy : Option JValue → Bool
  | none => true
  | some (JValue.str s) => s.isEmpty
  | some (JValue.num n) => n == 0

/-- JavaScript strict equality `===` between two possibly-absent values:
`null`/`undefined` never equal a present value nor each other here (the
emitter compares `null` with `undefined` only behind falsiness guards). -/
def jsStrictEq : Option JValue → Option JValue → Bool
  | some a, some b => decide (a = b)
  | _, _ => false

/-- The closure state of `createTransportEmitter`: `currentTrackId` is the
stored track id value, `none` standing for JavaScript `null`. -/
structure EmitterState where
  currentTrackId : Option JValue
deriving DecidableEq

/-- The emitter starts with `currentTrackId = null`. -/
def initState : EmitterState := ⟨none⟩

/-- `normalizeTrackPayload`: spread of the raw track with `event` forced to
`"track_start"`. -/
def normalizeTrackPayload (track : JObj) : JObj :=
  objSet track "event" (JValue.str "track_start")

/-- `trackStart` of `createTransportEmitter`: drop falsy ids, drop
re-notifications of the current track, otherwise store the id and hand the
normalized payload to the broadcaster. The returned list holds the payloads
broadcast by the call. -/
def trackStart (st : EmitterState) (track : JObj) : EmitterState × List JObj :=
  if jsFalsy (lookupField track "track_id") then (st, [])
  else if jsStrictEq st.currentTrackId (lookupField track "track_id") then (st, [])
  else (⟨lookupField track "track_id"⟩, [normalizeTrackPayload track])

/-- `stopCurrentTrack` of `createTransportEmitter`: no current track means no
event; otherwise broadcast `\x7b event: reason, track_id: currentTrackId \x7d`
and clear the state. The JavaScript default argument is `reason = "track_stop"`. -/
def stopCurrentTrack (st : EmitterState) (reason : String) : EmitterState × List JObj :=
  if jsFalsy st.currentTrackId then (st, [])
  else
    match st.currentTrackId with
    | some v => (⟨none⟩, [[("event", JValue.str reason), ("track_id", v)]])
    | none => (st, [])

/-- A call into the transport emitter. -/
inductive Cmd where
  | start (track : JObj)
  | stop (reason : String)

/-- One emitter call. -/
def stepEmitter (st : EmitterState) : Cmd → EmitterState × List JObj
  | Cmd.start t => trackStart st t
  | Cmd.stop r => stopCurrentTrack st r

/-- Run a sequence of emitter calls, accumulating the broadcast payloads in
emission order. -/
def runEmitter (st : EmitterState) : List Cmd → EmitterState × List JObj
  | [] => (st, [])
  | c :: cs =>
    let r1 := stepEmitter st c
    let r2 := runEmitter r1.1 cs
    (r2.1, r1.2 ++ r2.2)

/-- The payloads broadcast by a call sequence started from the idle emitter. -/
def emittedEvents (cmds : List Cmd) : List JObj :=
  (runEmitter initState cmds).2

/-- The wire envelope `\x7b type: "transport_event", event: ... \x7d` built by
`buildTransportMessage` (the `JSON.stringify` serialization is determined by
this object, field for field, in order). -/
structure WireMessage where
  type : String
  event : JObj
deriving DecidableEq

/-- `buildTransportMessage`: spread the payload and fill `timestamp` and
`source`, keeping upstream values when present (`??`). `now` stands for
`new Date().toISOString()` at emission time. -/
def buildTransportMessage (payload : JObj) (source now : String) : WireMessage :=
  { type := "transport_event"
    event :=
      objSet
        (objSet payload "timestamp" ((lookupField payload "timestamp").getD (JValue.str now)))
        "source" ((lookupField payload "source").getD (JValue.str source)) }

/-- First entry of `DEMO_TRACKS`, fields in source order. -/
def demoTrack1 : JObj :=
  [("roon_track_id", JValue.str "demo-track-1"), ("track_id", JValue.str "demo-track-1"),
   ("title", JValue.str "Demo Track 1"), ("artist", JValue.str "HSAJ Dev"),
   ("album", JValue.str "Bridge Demo"), ("quality", JValue.str "lossless"),
   ("duration_ms", JValue.num 180000), ("trackno", JValue.num 1)]

/-- Second entry of `DEMO_TRACKS`, fields in source order. -/
def demoTrack2 : JObj :=
  [("roon_track_id", JValue.str "demo-track-2"), ("track_id", JValue.str "demo-track-2"),
   ("title", JValue.str "Demo Track 2"), ("artist", JValue.str "HSAJ Dev"),
   ("album", JValue.str "Bridge Demo"), ("quality", JValue.str "atmos"),
   ("duration_ms", JValue.num 200000), ("trackno", JValue.num 2)]

/-- The static demo track directory. -/
def DEMO_TRACKS : List JObj := [demoTrack1, demoTrack2]

example : trackStart initState demoTrack1 =
    (⟨some (JValue.str "demo-track-1")⟩, [normalizeTrackPayload demoTrack1]) := by decide

example : (trackStart ⟨some (JValue.str "demo-track-1")⟩ demoTrack1).2 = [] := by decide

example : stopCurrentTrack ⟨some (JValue.str "demo-track-1")⟩ "track_stop" =
    (⟨none⟩, [[("event", JValue.str "track_stop"), ("track_id", JValue.str "demo-track-1")]]) := by
  decide

theorem lookupField_objSet_self (o : JObj) (k : String) (v : JValue) :
    lookupField (objSet o k v) k = some v := by
  induction o with
  | nil => simp [objSet, lookupField]
  | cons hd tl ih =>
    obtain ⟨k2, v2⟩ := hd
    by_cases h : k2 = k
    · simp [objSet, h, lookupField]
    · simp [objSet, h, lookupField, ih]

theorem lookupField_objSet_ne (o : JObj) (k k2 : String) (v : JValue) (h : k ≠ k2) :
    lookupField (objSet o k v) k2 = lookupField o k2 := by
  induction o with
  | nil => simp [objSet, lookupField, h]
  | cons hd tl ih =>
    obtain ⟨k3, v3⟩ := hd
    by_cases hk : k3 = k
    · subst hk; simp [objSet, lookupField, h]
    · simp only [objSet, if_neg hk, lookupField]
      by_cases hk2 : k3 = k2
      · simp [hk2]
      · simp [hk2, ih]

/-- C1: starting a track with a non-empty id from the idle emitter and then
re-notifying any payload carrying the same track id broadcasts exactly one
event in total, that event is a `track_start`, and the second call emits
nothing and leaves the stored current track id unchanged. -/
theorem trackStart_idempotent (t u : JObj) (s : String)
    (ht : lookupField t "track_id" = some (JValue.str s))
    (hs : s.isEmpty = false)
    (hu : lookupField u "track_id" = lookupField t "track_id") :
    (trackStart initState t).2 ++ (trackStart (trackStart initState t).1 u).2
      = [normalizeTrackPayload t] ∧
    lookupField (normalizeTrackPayload t) "event" = some (JValue.str "track_start") ∧
    (trackStart (trackStart initState t).1 u).1 = (trackStart initState t).1 := by
  have h1 : trackStart initState t = (⟨some (JValue.str s)⟩, [normalizeTrackPayload t]) := by
    simp [trackStart, initState, ht, jsFalsy, hs, jsStrictEq]
  have h2 : trackStart ⟨some (JValue.str s)⟩ u = (⟨some (JValue.str s)⟩, []) := by
    simp [trackStart, hu, ht, jsFalsy, hs, jsStrictEq]
  rw [h1]
  rw [h2]
  refine ⟨rfl, ?_, rfl⟩
  exact lookupField_objSet_self t "event" (JValue.str "track_start")

/-- C1 witness at the two concrete demo payloads. -/
theorem trackStart_idempotent_witness :
    (trackStart initState demoTrack1).2 ++ (trackStart (trackStart initState demoTrack1).1 demoTrack1).2
      = [normalizeTrackPayload demoTrack1] ∧
    lookupField (normalizeTrackPayload demoTrack1) "event" = some (JValue.str "track_start") ∧
    (trackStart (trackStart initState demoTrack1).1 demoTrack1).1 = (trackStart initState demoTrack1).1 :=
  trackStart_idempotent demoTrack1 demoTrack1 "demo-track-1" (by decide) (by decide) rfl

/-- C2: from the idle emitter, starting track A and then a different track B
broadcasts exactly the two normalized payloads for A then B, both labelled
`track_start`, and no broadcast event of the run is labelled `track_stop`. -/
theorem trackStart_switch (a b : JObj) (sa sb : String)
    (ha : lookupField a "track_id" = some (JValue.str sa))
    (hsa : sa.isEmpty = false)
    (hb : lookupField b "track_id" = some (JValue.str sb))
    (hsb : sb.isEmpty = false)
    (hne : sa ≠ sb) :
    emittedEvents [Cmd.start a, Cmd.start b]
      = [normalizeTrackPayload a, normalizeTrackPayload b] ∧
    lookupField (normalizeTrackPayload a) "event" = some (JValue.str "track_start") ∧
    lookupField (normalizeTrackPayload b) "event" = some (JValue.str "track_start") ∧
    ∀ e ∈ emittedEvents [Cmd.start a, Cmd.start b],
      lookupField e "event" ≠ some (JValue.str "track_stop") := by
  have h1 : trackStart initState a = (⟨some (JValue.str sa)⟩, [normalizeTrackPayload a]) := by
    simp [trackStart, initState, ha, jsFalsy, hsa, jsStrictEq]
  have h2 : trackStart ⟨some (JValue.str sa)⟩ b
      = (⟨some (JValue.str sb)⟩, [normalizeTrackPayload b]) := by
    simp [trackStart, hb, jsFalsy, hsb, jsStrictEq, hne]
  have hrun : emittedEvents [Cmd.start a, Cmd.start b]
      = [normalizeTrackPayload a, normalizeTrackPayload b] := by
    simp [emittedEvents, runEmitter, stepEmitter, h1, h2]
  refine ⟨hrun, lookupField_objSet_self a "event" (JValue.str "track_start"),
    lookupField_objSet_self b "event" (JValue.str "track_start"), ?_⟩
  intro e he
  rw [hrun] at he
  simp only [List.mem_cons, List.not_mem_nil, or_false] at he
  rcases he with he | he <;>
    · rw [he]
      simp [normalizeTrackPayload, lookupField_objSet_self]

/-- C2 witness at the two demo tracks. -/
theorem trackStart_switch_witness :
    emittedEvents [Cmd.start demoTrack1, Cmd.start demoTrack2]
      = [normalizeTrackPayload demoTrack1, normalizeTrackPayload demoTrack2] ∧
    lookupField (normalizeTrackPayload demoTrack1) "event" = some (JValue.str "track_start") ∧
    lookupField (normalizeTrackPayload demoTrack2) "event" = some (JValue.str "track_start") ∧
    ∀ e ∈ emittedEvents [Cmd.start demoTrack1, Cmd.start demoTrack2],
      lookupField e "event" ≠ some (JValue.str "track_stop") :=
  trackStart_switch demoTrack1 demoTrack2 "demo-track-1" "demo-track-2"
    (by decide) (by decide) (by decide) (by decide) (by decide)

/-- C3: with a track of non-empty id `x` current, `stopCurrentTrack` with the
default reason broadcasts exactly one event, labelled `track_stop` and carrying
`track_id = x` and nothing else (no title, album, artist, quality, duration or
track number), and clears the current track id; with no current track it
broadcasts nothing and changes nothing, so a second consecutive stop is a
no-op. -/
theorem stopCurrentTrack_roundtrip (x : String) (hx : x.isEmpty = false) :
    stopCurrentTrack ⟨some (JValue.str x)⟩ "track_stop"
      = (⟨none⟩, [[("event", JValue.str "track_stop"), ("track_id", JValue.str x)]]) ∧
    (∀ k, k ≠ "event" → k ≠ "track_id" →
      lookupField [("event", JValue.str "track_stop"), ("track_id", JValue.str x)] k = none) ∧
    stopCurrentTrack ⟨none⟩ "track_stop" = (⟨none⟩, []) := by
  refine ⟨by simp [stopCurrentTrack, jsFalsy, hx], ?_, by simp [stopCurrentTrack, jsFalsy]⟩
  intro k h1 h2
  simp [lookupField, Ne.symm h1, Ne.symm h2]

/-- C3 witness at the first demo track id. -/
theorem stopCurrentTrack_roundtrip_witness :
    stopCurrentTrack ⟨some (JValue.str "demo-track-1")⟩ "track_stop"
      = (⟨none⟩, [[("event", JValue.str "track_stop"),
                   ("track_id", JValue.str "demo-track-1")]]) ∧
    (∀ k, k ≠ "event" → k ≠ "track_id" →
      lookupField [("event", JValue.str "track_stop"),
                   ("track_id", JValue.str "demo-track-1")] k = none) ∧
    stopCurrentTrack ⟨none⟩ "track_stop" = (⟨none⟩, []) :=
  stopCurrentTrack_roundtrip "demo-track-1" (by decide)

/-- C5: a start notification whose `track_id` is absent or the empty string is
silently dropped from any emitter state: no event is broadcast and the stored
current track id is unchanged. The embedding is a total function, so the call
also cannot throw. -/
theorem trackStart_empty_id_noop (st : EmitterState) (t : JObj)
    (h : lookupField t "track_id" = none ∨ lookupField t "track_id" = some (JValue.str "")) :
    trackStart st t = (st, []) := by
  have he : "".isEmpty = true := rfl
  rcases h with h | h <;> simp [trackStart, h, jsFalsy, he]

/-- C5 witness at a payload carrying an empty track id. -/
theorem trackStart_empty_id_noop_witness :
    trackStart initState [("track_id", JValue.str ""), ("title", JValue.str "Ghost")]
      = (initState, []) :=
  trackStart_empty_id_noop initState
    [("track_id", JValue.str ""), ("title", JValue.str "Ghost")] (Or.inr (by decide))

/-- C10: with a track of non-empty id `x` current, `stopCurrentTrack` with any
caller-supplied reason broadcasts exactly one event whose `event` field equals
the reason verbatim (no validation or forcing to `track_stop`), with
`track_id = x` and no other fields, and clears the current track id. -/
theorem stopCurrentTrack_reason_verbatim (x : String) (hx : x.isEmpty = false)
    (reason : String) :
    stopCurrentTrack ⟨some (JValue.str x)⟩ reason
      = (⟨none⟩, [[("event", JValue.str reason), ("track_id", JValue.str x)]]) ∧
    lookupField [("event", JValue.str reason), ("track_id", JValue.str x)] "event"
      = some (JValue.str reason) ∧
    (∀ k, k ≠ "event" → k ≠ "track_id" →
      lookupField [("event", JValue.str reason), ("track_id", JValue.str x)] k = none) := by
  refine ⟨by simp [stopCurrentTrack, jsFalsy, hx], by simp [lookupField], ?_⟩
  intro k h1 h2
  simp [lookupField, Ne.symm h1, Ne.symm h2]

/-- C10 witness: reason `"track_start"` flows through unvalidated. -/
theorem stopCurrentTrack_reason_verbatim_witness :
    stopCurrentTrack ⟨some (JValue.str "demo-track-1")⟩ "track_start"
      = (⟨none⟩, [[("event", JValue.str "track_start"),
                   ("track_id", JValue.str "demo-track-1")]]) ∧
    lookupField [("event", JValue.str "track_start"),
                 ("track_id", JValue.str "demo-track-1")] "event"
      = some (JValue.str "track_start") ∧
    (∀ k, k ≠ "event" → k ≠ "track_id" →
      lookupField [("event", JValue.str "track_start"),
                   ("track_id", JValue.str "demo-track-1")] k = none) :=
  stopCurrentTrack_reason_verbatim "demo-track-1" (by decide) "track_start"

/-- C7: in every serialized event, `timestamp` equals the payload's timestamp
when one was supplied upstream and the emission-time clock reading otherwise,
and `source` equals the payload's source when supplied and the configured
default source tag otherwise. -/
theorem buildTransportMessage_timestamp_source (payload : JObj) (src now : String) :
    lookupField (buildTransportMessage payload src now).event "timestamp"
      = some ((lookupField payload "timestamp").getD (JValue.str now)) ∧
    lookupField (buildTransportMessage payload src now).event "source"
      = some ((lookupField payload "source").getD (JValue.str src)) := by
  constructor
  · rw [buildTransportMessage]
    rw [lookupField_objSet_ne _ "source" "timestamp" _ (by decide)]
    exact lookupField_objSet_self _ _ _
  · exact lookupField_objSet_self _ _ _

/-- The transport-event schema the specification claims is exhaustive for the
wire events: core fields plus the six descriptive fields, with the track
number called `track_number`. -/
def claimedSchemaFields : List String :=
  ["event", "track_id", "timestamp", "source", "title", "album", "artist",
   "quality", "duration_ms", "track_number"]

/-- C6 counterexample: the wire event built for the first demo track carries
the field `roon_track_id` (and its track number is under `trackno`), so not
every serialized event keeps to the claimed schema. -/
theorem demo_event_outside_claimed_schema :
    ¬ (∀ kv ∈ (buildTransportMessage (normalizeTrackPayload demoTrack1) "bridge"
          "2024-01-01T00:00:00.000Z").event, kv.1 ∈ claimedSchemaFields) := by
  decide

/-- C6 amended: every wire message is the envelope with `type =
"transport_event"` whose event carries every field of the input payload
through unchanged apart from `timestamp` and `source` (filled in when absent);
stop events therefore carry only `event`, `track_id`, `timestamp` and
`source`, while the demo-track start events additionally carry
`roon_track_id`, with the track number under `trackno` (not `track_number`). -/
theorem broadcast_envelope_fields (payload : JObj) (src now : String)
    (k : String) (hk1 : k ≠ "timestamp") (hk2 : k ≠ "source") :
    (buildTransportMessage payload src now).type = "transport_event" ∧
    lookupField (buildTransportMessage payload src now).event k = lookupField payload k ∧
    (∀ (reason : String) (v : JValue), k ≠ "event" → k ≠ "track_id" →
      lookupField (buildTransportMessage
        [("event", JValue.str reason), ("track_id", v)] src now).event k = none) ∧
    lookupField (buildTransportMessage (normalizeTrackPayload demoTrack1) src now).event
      "roon_track_id" = some (JValue.str "demo-track-1") ∧
    lookupField (buildTransportMessage (normalizeTrackPayload demoTrack1) src now).event
      "trackno" = some (JValue.num 1) := by
  have hcarry : ∀ (p : JObj) (k2 : String), k2 ≠ "timestamp" → k2 ≠ "source" →
      lookupField (buildTransportMessage p src now).event k2 = lookupField p k2 := by
    intro p k2 h1 h2
    rw [buildTransportMessage]
    rw [lookupField_objSet_ne _ "source" k2 _ (Ne.symm h2)]
    rw [lookupField_objSet_ne _ "timestamp" k2 _ (Ne.symm h1)]
  refine ⟨rfl, hcarry payload k hk1 hk2, ?_, ?_, ?_⟩
  · intro reason v h1 h2
    rw [hcarry _ k hk1 hk2]
    simp [lookupField, Ne.symm h1, Ne.symm h2]
  · rw [hcarry _ "roon_track_id" (by decide) (by decide)]
    decide
  · rw [hcarry _ "trackno" (by decide) (by decide)]
    decide

/-- C6 amended witness at the descriptive field `title`. -/
theorem broadcast_envelope_fields_witness :
    (buildTransportMessage demoTrack1 "bridge" "2024-01-01T00:00:00.000Z").type
      = "transport_event" ∧
    lookupField (buildTransportMessage demoTrack1 "bridge"
        "2024-01-01T00:00:00.000Z").event "title" = lookupField demoTrack1 "title" ∧
    (∀ (reason : String) (v : JValue), "title" ≠ "event" → "title" ≠ "track_id" →
      lookupField (buildTransportMessage
        [("event", JValue.str reason), ("track_id", v)] "bridge"
        "2024-01-01T00:00:00.000Z").event "title" = none) ∧
    lookupField (buildTransportMessage (normalizeTrackPayload demoTrack1) "bridge"
      "2024-01-01T00:00:00.000Z").event "roon_track_id" = some (JValue.str "demo-track-1") ∧
    lookupField (buildTransportMessage (normalizeTrackPayload demoTrack1) "bridge"
      "2024-01-01T00:00:00.000Z").event "trackno" = some (JValue.num 1) :=
  broadcast_envelope_fields demoTrack1 "bridge" "2024-01-01T00:00:00.000Z" "title"
    (by decide) (by decide)

/-- Relation between the emitter state and the most recent broadcast payload:
whenever a track id is stored, it is non-falsy and the last payload broadcast
was a `track_start` carrying exactly that id. -/
def goodState (st : EmitterState) (prev : Option JObj) : Prop :=
  ∀ v, st.currentTrackId = some v →
    jsFalsy (some v) = false ∧
    ∃ p, prev = some p ∧ lookupField p "event" = some (JValue.str "track_start") ∧
      lookupField p "track_id" = some v

/-- Every `track_stop`-labelled payload in the list is immediately preceded
(by the given previous payload for the head, by its list predecessor
otherwise) by a `track_start`-labelled payload with the same track id. -/
def stopsOkFrom : Option JObj → List JObj → Prop
  | _, [] => True
  | prev, e :: rest =>
    (lookupField e "event" = some (JValue.str "track_stop") →
      ∃ p, prev = some p ∧ lookupField p "event" = some (JValue.str "track_start") ∧
        lookupField p "track_id" = lookupField e "track_id") ∧
    stopsOkFrom (some e) rest

/-- The last element of the list, or the fallback when the list is empty. -/
def lastOr (prev : Option JObj) : List JObj → Option JObj
  | [] => prev
  | e :: rest => lastOr (some e) rest

theorem stopsOkFrom_append_single (prev : Option JObj) (e : JObj) (rest : List JObj)
    (he : lookupField e "event" = some (JValue.str "track_stop") →
      ∃ p, prev = some p ∧ lookupField p "event" = some (JValue.str "track_start") ∧
        lookupField p "track_id" = lookupField e "track_id")
    (hrest : stopsOkFrom (some e) rest) :
    stopsOkFrom prev (e :: rest) :=
  ⟨he, hrest⟩

theorem runEmitter_good (cs : List Cmd) : ∀ (st : EmitterState) (prev : Option JObj),
    goodState st prev →
    stopsOkFrom prev (runEmitter st cs).2 ∧
    goodState (runEmitter st cs).1 (lastOr prev (runEmitter st cs).2) := by
  induction cs with
  | nil => intro st prev h; exact ⟨trivial, h⟩
  | cons c cs ih =>
    intro st prev h
    cases c with
    | start t =>
      by_cases hf : jsFalsy (lookupField t "track_id") = true
      · have hstep : trackStart st t = (st, []) := by simp [trackStart, hf]
        simpa [runEmitter, stepEmitter, hstep] using ih st prev h
      · by_cases hdup : jsStrictEq st.currentTrackId (lookupField t "track_id") = true
        · have hstep : trackStart st t = (st, []) := by simp [trackStart, hf, hdup]
          simpa [runEmitter, stepEmitter, hstep] using ih st prev h
        · have hstep : trackStart st t
              = (⟨lookupField t "track_id"⟩, [normalizeTrackPayload t]) := by
            simp [trackStart, hf, hdup]
          obtain ⟨v, hv⟩ : ∃ v, lookupField t "track_id" = some v := by
            cases hl : lookupField t "track_id" with
            | none => rw [hl] at hf; exact absurd rfl hf
            | some v => exact ⟨v, rfl⟩
          have hnorm1 : lookupField (normalizeTrackPayload t) "event"
              = some (JValue.str "track_start") := lookupField_objSet_self _ _ _
          have hnorm2 : lookupField (normalizeTrackPayload t) "track_id" = some v := by
            rw [normalizeTrackPayload, lookupField_objSet_ne _ _ _ _ (by decide), hv]
          have hgood : goodState ⟨lookupField t "track_id"⟩ (some (normalizeTrackPayload t)) := by
            intro w hw
            rw [hv] at hw
            cases hw
            refine ⟨?_, normalizeTrackPayload t, rfl, hnorm1, hnorm2⟩
            rw [← hv]
            exact Bool.eq_false_iff.mpr hf
          have hrec := ih ⟨lookupField t "track_id"⟩ (some (normalizeTrackPayload t)) hgood
          refine ⟨?_, ?_⟩
          · rw [runEmitter]
            simp only [stepEmitter, hstep]
            refine stopsOkFrom_append_single _ _ _ ?_ hrec.1
            intro hstop
            rw [hnorm1] at hstop
            simp at hstop
          · rw [runEmitter]
            simp only [stepEmitter, hstep]
            simpa [lastOr] using hrec.2
    | stop r =>
      by_cases hf : jsFalsy st.currentTrackId = true
      · have hstep : stopCurrentTrack st r = (st, []) := by simp [stopCurrentTrack, hf]
        simpa [runEmitter, stepEmitter, hstep] using ih st prev h
      · obtain ⟨v, hv⟩ : ∃ v, st.currentTrackId = some v := by
          cases hc : st.currentTrackId with
          | none => rw [hc] at hf; exact absurd rfl hf
          | some v => exact ⟨v, rfl⟩
        obtain ⟨hvf, p, hp, hps, hpid⟩ := h v hv
        have hstep : stopCurrentTrack st r
            = (⟨none⟩, [[("event", JValue.str r), ("track_id", v)]]) := by
          simp [stopCurrentTrack, hv, hvf]
        have hgood : goodState ⟨none⟩ (some [("event", JValue.str r), ("track_id", v)]) := by
          intro w hw
          cases hw
        have hrec := ih ⟨none⟩ (some [("event", JValue.str r), ("track_id", v)]) hgood
        refine ⟨?_, ?_⟩
        · rw [runEmitter]
          simp only [stepEmitter, hstep]
          refine stopsOkFrom_append_single _ _ _ ?_ hrec.1
          intro _
          refine ⟨p, hp, hps, ?_⟩
          rw [hpid]
          simp [lookupField]
        · rw [runEmitter]
          simp only [stepEmitter, hstep]
          simpa [lastOr] using hrec.2

theorem stopsOkFrom_adjacent (es : List JObj) : ∀ (prev : Option JObj),
    stopsOkFrom prev es → ∀ (i : Nat) (hi : i + 1 < es.length),
    lookupField (es.get ⟨i + 1, hi⟩) "event" = some (JValue.str "track_stop") →
    lookupField (es.get ⟨i, Nat.lt_of_succ_lt hi⟩) "event" = some (JValue.str "track_start") ∧
    lookupField (es.get ⟨i, Nat.lt_of_succ_lt hi⟩) "track_id"
      = lookupField (es.get ⟨i + 1, hi⟩) "track_id" := by
  induction es with
  | nil => intro prev _ i hi; exact absurd hi (by simp)
  | cons e rest ih =>
    intro prev hok i hi hstop
    obtain ⟨h1, h2⟩ := hok
    cases i with
    | zero =>
      cases rest with
      | nil => exact absurd hi (by simp)
      | cons r0 rest2 =>
        obtain ⟨g1, _⟩ := h2
        have hstop0 : lookupField r0 "event" = some (JValue.str "track_stop") := hstop
        obtain ⟨p, hp, hps, hpid⟩ := g1 hstop0
        injection hp with hp2
        subst hp2
        exact ⟨hps, hpid⟩
    | succ j =>
      exact ih (some e) h2 j (Nat.lt_of_succ_lt_succ hi) hstop

theorem stopsOkFrom_head (es : List JObj) (hok : stopsOkFrom none es) (h0 : 0 < es.length) :
    lookupField (es.get ⟨0, h0⟩) "event" ≠ some (JValue.str "track_stop") := by
  cases es with
  | nil => exact absurd h0 (by simp)
  | cons e rest =>
    intro hstop
    obtain ⟨p, hp, _⟩ := hok.1 hstop
    cases hp

/-- C4: in any finite call sequence against the emitter started idle, every
broadcast `track_stop` event is immediately preceded in the broadcast sequence
by a `track_start` event carrying the same track id — the start that opened
the play session the stop closes. Since the stop is never itself preceded by a
stop of that session (its predecessor is the session's start), at most one
`track_stop` is broadcast per play session. -/
theorem trackStop_follows_matching_start (cmds : List Cmd) (i : Nat)
    (hi : i < (emittedEvents cmds).length)
    (hstop : lookupField ((emittedEvents cmds).get ⟨i, hi⟩) "event"
      = some (JValue.str "track_stop")) :
    0 < i ∧
    lookupField ((emittedEvents cmds).get ⟨i - 1, Nat.lt_of_le_of_lt (Nat.sub_le i 1) hi⟩)
      "event" = some (JValue.str "track_start") ∧
    lookupField ((emittedEvents cmds).get ⟨i - 1, Nat.lt_of_le_of_lt (Nat.sub_le i 1) hi⟩)
      "track_id" = lookupField ((emittedEvents cmds).get ⟨i, hi⟩) "track_id" := by
  have hinit : goodState initState none := by
    intro v hv
    cases hv
  have hok : stopsOkFrom none (emittedEvents cmds) :=
    (runEmitter_good cmds initState none hinit).1
  cases i with
  | zero => exact absurd hstop (stopsOkFrom_head _ hok hi)
  | succ j =>
    have := stopsOkFrom_adjacent (emittedEvents cmds) none hok j hi hstop
    exact ⟨Nat.succ_pos j, this.1, this.2⟩

/-- C4 witness: a start followed by a default stop. -/
theorem trackStop_follows_matching_start_witness :
    0 < 1 ∧
    lookupField ((emittedEvents [Cmd.start demoTrack1, Cmd.stop "track_stop"]).get
      ⟨0, by decide⟩) "event" = some (JValue.str "track_start") ∧
    lookupField ((emittedEvents [Cmd.start demoTrack1, Cmd.stop "track_stop"]).get
      ⟨0, by decide⟩) "track_id"
      = lookupField ((emittedEvents [Cmd.start demoTrack1, Cmd.stop "track_stop"]).get
          ⟨1, by decide⟩) "track_id" :=
  trackStop_follows_matching_start [Cmd.start demoTrack1, Cmd.stop "track_stop"] 1
    (by decide) (by decide)

/-- Value of a hexadecimal digit character, as accepted by the escape
sequences of `decodeURIComponent`. -/
def hexVal (c : Char) : Option Nat :=
  if 48 ≤ c.toNat ∧ c.toNat ≤ 57 then some (c.toNat - 48)
  else if 65 ≤ c.toNat ∧ c.toNat ≤ 70 then some (c.toNat - 55)
  else if 97 ≤ c.toNat ∧ c.toNat ≤ 102 then some (c.toNat - 87)
  else none

/-- UTF-8 encoding of a code point, used for the characters of the request
path that are not percent-escaped. -/
def utf8EncodeCp (n : Nat) : List Nat :=
  if n < 128 then [n]
  else if n < 2048 then [192 + n / 64, 128 + n % 64]
  else if n < 65536 then [224 + n / 4096, 128 + n / 64 % 64, 128 + n % 64]
  else [240 + n / 262144, 128 + n / 4096 % 64, 128 + n / 64 % 64, 128 + n % 64]

/-- Whether a byte is a UTF-8 continuation byte. -/
def isCont (b : Nat) : Bool :=
  decide (128 ≤ b) && decide (b < 192)

/-- Replace each `%hh` escape by its byte and every other character by its
UTF-8 bytes; `none` when an escape is cut short or has a non-hex digit. -/
def percentDecodeBytes : List Char → Option (List Nat)
  | [] => some []
  | '%' :: c1 :: c2 :: rest =>
    match hexVal c1, hexVal c2, percentDecodeBytes rest with
    | some h, some l, some bs => some ((16 * h + l) :: bs)
    | _, _, _ => none
  | '%' :: _ => none
  | c :: rest => (percentDecodeBytes rest).map (fun bs => utf8EncodeCp c.toNat ++ bs)

/-- UTF-8 decoding of a byte sequence, rejecting truncated sequences, stray
continuation bytes, overlong encodings, surrogates and out-of-range code
points, as `decodeURIComponent` does. -/
def utf8Decode : List Nat → Option (List Char)
  | [] => some []
  | b :: rest =>
    if b < 128 then (utf8Decode rest).map (fun cs => Char.ofNat b :: cs)
    else if b < 192 then none
    else if b < 224 then
      match rest with
      | b1 :: rest2 =>
        if isCont b1 then
          let cp := (b - 192) * 64 + (b1 - 128)
          if cp < 128 then none
          else (utf8Decode rest2).map (fun cs => Char.ofNat cp :: cs)
        else none
      | [] => none
    else if b < 240 then
      match rest with
      | b1 :: b2 :: rest2 =>
        if isCont b1 && isCont b2 then
          let cp := (b - 224) * 4096 + (b1 - 128) * 64 + (b2 - 128)
          if cp < 2048 then none
          else if 55296 ≤ cp ∧ cp ≤ 57343 then none
          else (utf8Decode rest2).map (fun cs => Char.ofNat cp :: cs)
        else none
      | _ => none
    else if b < 248 then
      match rest with
      | b1 :: b2 :: b3 :: rest2 =>
        if isCont b1 && isCont b2 && isCont b3 then
          let cp := (b - 240) * 262144 + (b1 - 128) * 4096 + (b2 - 128) * 64 + (b3 - 128)
          if cp < 65536 then none
          else if 1114111 < cp then none
          else (utf8Decode rest2).map (fun cs => Char.ofNat cp :: cs)
        else none
      | _ => none
    else none

/-- Model of `decodeURIComponent` on a pathname segment (given as its
characters): `none` models the thrown `URIError`. -/
def percentDecode (cs : List Char) : Option String :=
  match percentDecodeBytes cs with
  | none => none
  | some bs => (utf8Decode bs).map (fun chars => String.mk chars)

example : percentDecode "demo-track-1".data = some "demo-track-1" := by decide

example : percentDecode "unknown%2Did".data = some "unknown-id" := by decide

example : percentDecode "caf%C3%A9".data = some "café" := by decide

example : percentDecode "bad%ZZ".data = none := by decide

/-- A JSON response body: an object or an array of objects. -/
inductive ApiBody where
  | obj (o : JObj)
  | arr (items : List JObj)
deriving DecidableEq

/-- An HTTP response of the status API: status code and JSON body. -/
structure ApiResponse where
  status : Nat
  body : ApiBody
deriving DecidableEq

/-- `buildHealthResponse`. -/
def buildHealthResponse (roonStatus : String) : JObj :=
  [("status", JValue.str "ok"), ("roon", JValue.str roonStatus)]

/-- The field names of the `TrackDetails` projection, in source order. -/
def trackDetailFields : List String :=
  ["roon_track_id", "artist", "album", "title", "duration_ms", "trackno"]

/-- The object literal `getTrackDetails` returns: the six detail fields read
off the stored record (all present on every demo track). -/
def projectTrackDetails (track : JObj) : JObj :=
  trackDetailFields.filterMap (fun k => (lookupField track k).map (fun v => (k, v)))

/-- `getTrackDetails`: first demo track whose `roon_track_id` or `track_id`
strictly equals the requested id, projected to its details. -/
def getTrackDetails (roonTrackId : String) : Option JObj :=
  (DEMO_TRACKS.find? (fun item =>
      jsStrictEq (lookupField item "roon_track_id") (some (JValue.str roonTrackId)) ||
      jsStrictEq (lookupField item "track_id") (some (JValue.str roonTrackId)))).map
    projectTrackDetails

/-- The pathname `"/health"`, as characters. -/
def healthPath : List Char := ['/', 'h', 'e', 'a', 'l', 't', 'h']

/-- The pathname `"/blocked"`, as characters. -/
def blockedPath : List Char := ['/', 'b', 'l', 'o', 'c', 'k', 'e', 'd']

/-- The route stem `"/track/"`, as characters. -/
def trackPathStem : List Char := ['/', 't', 'r', 'a', 'c', 'k', '/']

/-- The request handler installed by `startApiServer`, over the request method
and the parsed pathname. `blockedEnabled` is the `BLOCKED_ENDPOINT_ENABLED`
flag and `blockedList` the value the blocked-items provider would return;
answering without consulting it is visible as independence from that
argument. `roonStatus` is the current connection state read by the health
provider. The `none` result models the `URIError` escaping from
`decodeURIComponent` on a malformed track id, which aborts the request
without a JSON response. -/
def handleRequest (blockedEnabled : Bool) (blockedList : List JObj) (roonStatus : String)
    (method : String) (path : List Char) : Option ApiResponse :=
  if method = "GET" ∧ path = healthPath then
    some ⟨200, ApiBody.obj (buildHealthResponse roonStatus)⟩
  else if method = "GET" ∧ path = blockedPath then
    if blockedEnabled = false then
      some ⟨501, ApiBody.obj [("message",
        JValue.str "Blocked endpoint is not implemented in this build")]⟩
    else some ⟨200, ApiBody.arr blockedList⟩
  else if method = "GET" ∧ trackPathStem.isPrefixOf path then
    match percentDecode (path.drop 7) with
    | none => none
    | some id =>
      match getTrackDetails id with
      | some td => some ⟨200, ApiBody.obj td⟩
      | none => some ⟨404, ApiBody.obj
          [("message", JValue.str "Track not found"), ("roon_track_id", JValue.str id)]⟩
  else some ⟨404, ApiBody.obj [("message", JValue.str "Not Found")]⟩

theorem isPrefixOf_append (l r : List Char) : l.isPrefixOf (l ++ r) = true := by
  induction l with
  | nil => simp [List.isPrefixOf]
  | cons c cs ih => simp [List.isPrefixOf, ih]

theorem trackRoute_ne_health (rest : List Char) : trackPathStem ++ rest ≠ healthPath := by
  intro h
  have h2 := congrArg (fun l => l[1]?) h
  simp [trackPathStem, healthPath] at h2

theorem trackRoute_ne_blocked (rest : List Char) : trackPathStem ++ rest ≠ blockedPath := by
  intro h
  have h2 := congrArg (fun l => l[1]?) h
  simp [trackPathStem, blockedPath] at h2

theorem handleRequest_track (enabled : Bool) (bl : List JObj) (rs : String)
    (rawId : List Char) :
    handleRequest enabled bl rs "GET" (trackPathStem ++ rawId) =
      match percentDecode rawId with
      | none => none
      | some id =>
        match getTrackDetails id with
        | some td => some ⟨200, ApiBody.obj td⟩
        | none => some ⟨404, ApiBody.obj
            [("message", JValue.str "Track not found"), ("roon_track_id", JValue.str id)]⟩ := by
  rw [handleRequest]
  rw [if_neg (fun hc => trackRoute_ne_health rawId hc.2)]
  rw [if_neg (fun hc => trackRoute_ne_blocked rawId hc.2)]
  have hpre : trackPathStem.isPrefixOf (trackPathStem ++ rawId) = true :=
    isPrefixOf_append trackPathStem rawId
  rw [if_pos ⟨rfl, hpre⟩]
  have hdrop : (trackPathStem ++ rawId).drop 7 = rawId :=
    List.drop_left' (by decide)
  rw [hdrop]

/-- C8: a GET request under `/track/` has its id percent-decoded before any
lookup; when the directory holds a record whose identifier equals the decoded
id the response is 200 with exactly the stored detail fields of that record,
and otherwise it is 404 echoing the decoded id verbatim. -/
theorem trackLookup_route (enabled : Bool) (bl : List JObj) (rs : String)
    (rawId : List Char) (decoded : String)
    (hdec : percentDecode rawId = some decoded) :
    (∀ track ∈ DEMO_TRACKS, lookupField track "roon_track_id" = some (JValue.str decoded) →
      handleRequest enabled bl rs "GET" (trackPathStem ++ rawId)
        = some ⟨200, ApiBody.obj (projectTrackDetails track)⟩) ∧
    ((∀ track ∈ DEMO_TRACKS, lookupField track "roon_track_id" ≠ some (JValue.str decoded)) →
      handleRequest enabled bl rs "GET" (trackPathStem ++ rawId)
        = some ⟨404, ApiBody.obj [("message", JValue.str "Track not found"),
            ("roon_track_id", JValue.str decoded)]⟩) := by
  have hdecoded : handleRequest enabled bl rs "GET" (trackPathStem ++ rawId)
      = match getTrackDetails decoded with
        | some td => some ⟨200, ApiBody.obj td⟩
        | none => some ⟨404, ApiBody.obj [("message", JValue.str "Track not found"),
            ("roon_track_id", JValue.str decoded)]⟩ := by
    rw [handleRequest_track, hdec]
  constructor
  · intro track hmem heq
    rw [hdecoded]
    simp only [DEMO_TRACKS, List.mem_cons, List.not_mem_nil, or_false] at hmem
    rcases hmem with rfl | rfl
    · rw [show lookupField demoTrack1 "roon_track_id"
          = some (JValue.str "demo-track-1") from rfl] at heq
      simp only [Option.some.injEq, JValue.str.injEq] at heq
      subst heq
      decide
    · rw [show lookupField demoTrack2 "roon_track_id"
          = some (JValue.str "demo-track-2") from rfl] at heq
      simp only [Option.some.injEq, JValue.str.injEq] at heq
      subst heq
      decide
  · intro hall
    have h1 := hall demoTrack1 (by simp [DEMO_TRACKS])
    have h2 := hall demoTrack2 (by simp [DEMO_TRACKS])
    have hne1 : "demo-track-1" ≠ decoded := by
      intro hc
      exact h1 (by simp [demoTrack1, lookupField, hc])
    have hne2 : "demo-track-2" ≠ decoded := by
      intro hc
      exact h2 (by simp [demoTrack2, lookupField, hc])
    have hfind : getTrackDetails decoded = none := by
      rw [getTrackDetails]
      have : DEMO_TRACKS.find? (fun item =>
          jsStrictEq (lookupField item "roon_track_id") (some (JValue.str decoded)) ||
          jsStrictEq (lookupField item "track_id") (some (JValue.str decoded))) = none := by
        rw [List.find?_eq_none]
        intro x hx
        simp only [DEMO_TRACKS, List.mem_cons, List.not_mem_nil, or_false] at hx
        rcases hx with rfl | rfl
        · simp [demoTrack1, lookupField, jsStrictEq, hne1]
        · simp [demoTrack2, lookupField, jsStrictEq, hne2]
      rw [this]
      rfl
    rw [hdecoded, hfind]

/-- C8 witness: a found id, reached through a percent-escaped request path. -/
theorem trackLookup_route_witness :
    handleRequest true [] "disconnected" "GET" (trackPathStem ++ "demo%2Dtrack%2D1".data)
      = some ⟨200, ApiBody.obj (projectTrackDetails demoTrack1)⟩ :=
  (trackLookup_route true [] "disconnected" "demo%2Dtrack%2D1".data "demo-track-1"
      (by decide)).1 demoTrack1 (by simp [DEMO_TRACKS]) (by decide)

/-- The 501 body answered when the blocked endpoint is compiled out. -/
def notImplementedBody : JObj :=
  [("message", JValue.str "Blocked endpoint is not implemented in this build")]

/-- C9: with the feature flag off, GET `/blocked` answers 501 with the fixed
message without consulting the blocked-items provider (the answer does not
depend on the provided list); with the flag on it answers 200 with the
configured list; and for a fixed flag value the two outcomes are mutually
exclusive, the disabled and enabled answers being distinct responses. -/
theorem blocked_flag_gating (bl bl2 : List JObj) (rs : String) :
    handleRequest false bl rs "GET" blockedPath = some ⟨501, ApiBody.obj notImplementedBody⟩ ∧
    handleRequest false bl rs "GET" blockedPath = handleRequest false bl2 rs "GET" blockedPath ∧
    handleRequest true bl rs "GET" blockedPath = some ⟨200, ApiBody.arr bl⟩ ∧
    handleRequest false bl rs "GET" blockedPath ≠ handleRequest true bl rs "GET" blockedPath := by
  have hoff : ∀ b : List JObj, handleRequest false b rs "GET" blockedPath
      = some ⟨501, ApiBody.obj notImplementedBody⟩ := by
    intro b
    rw [handleRequest, if_neg (by decide : ¬("GET" = "GET" ∧ blockedPath = healthPath))]
    rw [if_pos (show "GET" = "GET" ∧ blockedPath = blockedPath from ⟨rfl, rfl⟩)]
    rw [if_pos rfl]
    rfl
  have hon : handleRequest true bl rs "GET" blockedPath = some ⟨200, ApiBody.arr bl⟩ := by
    rw [handleRequest, if_neg (by decide : ¬("GET" = "GET" ∧ blockedPath = healthPath))]
    rw [if_pos (show "GET" = "GET" ∧ blockedPath = blockedPath from ⟨rfl, rfl⟩)]
    rw [if_neg (by decide : ¬(true = false))]
  refine ⟨hoff bl, (hoff bl).trans (hoff bl2).symm, hon, ?_⟩
  rw [hoff bl, hon]
  intro hc
  injection hc with hc2
  cases hc2

/-- C9 witness at a concrete provider list. -/
theorem blocked_flag_gating_witness :
    handleRequest false [[("type", JValue.str "track"), ("id", JValue.str "demo-track-2")]]
        "connected" "GET" blockedPath = some ⟨501, ApiBody.obj notImplementedBody⟩ ∧
    handleRequest false [[("type", JValue.str "track"), ("id", JValue.str "demo-track-2")]]
        "connected" "GET" blockedPath = handleRequest false [] "connected" "GET" blockedPath ∧
    handleRequest true [[("type", JValue.str "track"), ("id", JValue.str "demo-track-2")]]
        "connected" "GET" blockedPath
      = some ⟨200, ApiBody.arr [[("type", JValue.str "track"),
          ("id", JValue.str "demo-track-2")]]⟩ ∧
    handleRequest false [[("type", JValue.str "track"), ("id", JValue.str "demo-track-2")]]
        "connected" "GET" blockedPath
      ≠ handleRequest true [[("type", JValue.str "track"), ("id", JValue.str "demo-track-2")]]
          "connected" "GET" blockedPath :=
  blocked_flag_gating [[("type", JValue.str "track"), ("id", JValue.str "demo-track-2")]]
    [] "connected"
